import Mathlib

/-
Verification of the redis example service adapter (Go package `adapter`,
files redis_manifest_generator.go and redis_binding.go) against its
natural-language specification.

Shallow embedding conventions:
  - Go heterogeneous maps (map[string]interface{} and
    map[interface{}]interface{}, whose keys are always strings here) are
    modelled as association lists `List (String × GoVal)`; the list order
    models one possible Go map iteration order (Go does not fix an order).
  - A Go `interface{}` value is modelled by `GoVal`.  `GoVal.num` models a
    float64 carrying an integral value (JSON numbers for the maxclients
    parameter); the truncating conversion int(float64) is therefore the
    identity here.
  - Functions that can fail return `Except String α` when the Go code
    returns (α, error), and `Outcome α` when the Go code can additionally
    panic (failed type assertion `x.(T)`, out-of-range index):
    `Outcome.panic` marks a Go runtime panic, i.e. a crash that is not an
    error return value.
  - The pluggable global CurrentPasswordGenerator is modelled as an explicit
    parameter `pwgen : Except String String`, the result the generator
    would return on this call.
  - Logging to StderrLogger is a side effect with no influence on results
    and is not modelled; the values returned to the caller are modelled
    exactly, including the generic `errors.New("")` results that the source
    returns after logging details server-side.
  - serviceadapter.RequestParameters is reduced to the result of its
    ArbitraryParams() accessor (SDK code outside this repository); the
    platform/context fields are only logged by the source.
-/

/-- A Go `interface{}` value as used by the adapter property maps. -/
inductive GoVal where
  | str : String → GoVal
  | int : Int → GoVal
  | num : Int → GoVal
  | bool : Bool → GoVal
  | vmap : List (String × GoVal) → GoVal
  deriving Repr

/-- A Go map with string keys holding `interface{}` values. -/
abbrev Props := List (String × GoVal)

/-- Result of a Go computation that may return an error value or panic. -/
inductive Outcome (α : Type) where
  | ok : α → Outcome α
  | err : String → Outcome α
  | panic : Outcome α
  deriving Repr

def Outcome.bind {α β : Type} : Outcome α → (α → Outcome β) → Outcome β
  | .ok a, f => f a
  | .err e, _ => .err e
  | .panic, _ => .panic

/-- serviceadapter.ServiceRelease: name, version and provided job names. -/
structure ServiceRelease where
  name : String
  version : String
  jobs : List String
  deriving Repr, DecidableEq

/-- The stemcell of a serviceadapter.ServiceDeployment. -/
structure ServiceStemcell where
  os : String
  version : String
  deriving Repr, DecidableEq

/-- serviceadapter.ServiceDeployment (the fields the adapter reads). -/
structure ServiceDeployment where
  deploymentName : String
  releases : List ServiceRelease
  stemcell : ServiceStemcell
  deriving Repr, DecidableEq

/-- serviceadapter.InstanceGroup: plan-supplied placement for one group. -/
structure InstanceGroupSpec where
  name : String
  instances : Int
  vmType : String
  vmExtensions : List String
  persistentDiskType : String
  networks : List String
  azs : List String
  deriving Repr, DecidableEq

/-- serviceadapter.Update and bosh.Update share the same field set. -/
structure UpdateBlock where
  canaries : Int
  canaryWatchTime : String
  updateWatchTime : String
  maxInFlight : Int
  serial : Option Bool
  deriving Repr, DecidableEq

/-- serviceadapter.Plan (the fields the adapter reads). -/
structure Plan where
  instanceGroups : List InstanceGroupSpec
  properties : Props
  update : Option UpdateBlock
  deriving Repr

/-- bosh.Release. -/
structure BoshRelease where
  name : String
  version : String
  deriving Repr, DecidableEq

/-- bosh.Stemcell (alias_ models the Alias field; alias is reserved). -/
structure BoshStemcell where
  alias_ : String
  os : String
  version : String
  deriving Repr, DecidableEq

/-- bosh.Job (name and providing release). -/
structure BoshJob where
  name : String
  release : String
  deriving Repr, DecidableEq

/-- bosh.Network (only the name is set by the adapter). -/
structure BoshNetwork where
  name : String
  deriving Repr, DecidableEq

/-- bosh.InstanceGroup (the fields the adapter writes and reads). -/
structure BoshInstanceGroup where
  name : String
  instances : Int
  jobs : List BoshJob
  vmType : String
  vmExtensions : List String
  persistentDiskType : String
  stemcell : String
  networks : List BoshNetwork
  azs : List String
  properties : Props
  deriving Repr

/-- bosh.BoshManifest (the fields the adapter writes and reads). -/
structure BoshManifest where
  name : String
  releases : List BoshRelease
  stemcells : List BoshStemcell
  instanceGroups : List BoshInstanceGroup
  update : UpdateBlock
  properties : Props
  deriving Repr

def RedisServerJobName : String := "redis-server"

def RedisServerPersistencePropertyKey : String := "persistence"

def RedisServerPort : Int := 6379

/-- Source: findIllegalArbitraryParams. Collects, in map-iteration order,
every key of the arbitrary parameters other than "maxclients". -/
def findIllegalArbitraryParams : Props → List String
  | [] => []
  | (k, _) :: rest =>
    if k ≠ "maxclients" then k :: findIllegalArbitraryParams rest
    else findIllegalArbitraryParams rest

/-- Source: findRedisServerInstanceGroup. First instance group of the plan
whose name is the redis-server job name. -/
def findRedisServerInstanceGroup (plan : Plan) : Option InstanceGroupSpec :=
  plan.instanceGroups.find? (fun instanceGroup => instanceGroup.name == RedisServerJobName)

/-- Greedily take the leading run of ASCII digits of a character list,
returning the digits and the remainder. -/
def takeDigits : List Char → List Char × List Char
  | [] => ([], [])
  | c :: cs =>
    if c.isDigit then
      let p := takeDigits cs
      (c :: p.1, p.2)
    else ([], c :: cs)

/-- Match the optional dev suffix of the version grammar: the remainder must
be exactly "+dev." followed by one or more digits. -/
def matchDevSuffix : List Char → Option (List Char)
  | '+' :: 'd' :: 'e' :: 'v' :: '.' :: rest =>
    let p := takeDigits rest
    if p.1 ≠ [] ∧ p.2 = [] then some p.1 else none
  | _ => none

/-- Decision procedure for the anchored Go regular expression
(caret)(backslash d+)(?:(dot)(backslash d+))?(?:(plus)dev(dot)(backslash d+))?(dollar):
returns the captured digit groups (major, optional minor, optional patch). -/
def matchVersion (s : String) : Option (List Char × Option (List Char) × Option (List Char)) :=
  let p1 := takeDigits s.toList
  if p1.1 = [] then none
  else
    match p1.2 with
    | [] => some (p1.1, none, none)
    | '.' :: rest =>
      let p2 := takeDigits rest
      if p2.1 = [] then none
      else
        match p2.2 with
        | [] => some (p1.1, some p2.1, none)
        | r2 =>
          match matchDevSuffix r2 with
          | some d3 => some (p1.1, some p2.1, some d3)
          | none => none
    | r1 =>
      match matchDevSuffix r1 with
      | some d3 => some (p1.1, none, some d3)
      | none => none

/-- Numeric value of a list of ASCII digits. -/
def digitsToNat (ds : List Char) : Nat :=
  ds.foldl (fun acc c => 10 * acc + (c.toNat - 48)) 0

/-- strconv.Atoi restricted to the digit-only strings captured by the
version regular expression: fails when the value overflows a 64-bit int. -/
def goAtoi (ds : List Char) : Except String Int :=
  if digitsToNat ds ≤ 9223372036854775807 then .ok (digitsToNat ds : Int)
  else .error ("strconv.Atoi: parsing \"" ++ String.mk ds ++ "\": value out of range")

/-- Source: parseReleaseVersion. Major, minor and patch integers of a
version string; a missing component defaults to 0. -/
def parseReleaseVersion (versionString : String) : Except String (Int × Int × Int) :=
  match matchVersion versionString with
  | none => .error (versionString ++ " is not a valid BOSH release version")
  | some (majorDigits, minorDigits, patchDigits) =>
    match goAtoi majorDigits with
    | .error e => .error e
    | .ok major =>
      match (match minorDigits with | none => Except.ok 0 | some ds => goAtoi ds) with
      | .error e => .error e
      | .ok minor =>
        match (match patchDigits with | none => Except.ok 0 | some ds => goAtoi ds) with
        | .error e => .error e
        | .ok patch => .ok (major, minor, patch)

/-- Source: generateUpdateBlock. Copy the plan update block or default it. -/
def generateUpdateBlock (update : Option UpdateBlock) : UpdateBlock :=
  match update with
  | some u => u
  | none =>
    { canaries := 1
      canaryWatchTime := "30000-240000"
      updateWatchTime := "30000-240000"
      maxInFlight := 4
      serial := none }

/-- The releases collected by the loop in findReleaseForJob: one copy of a
release per occurrence of the required job in its job list, in order. -/
def releasesThatProvideJob (requiredJob : String) : List ServiceRelease → List ServiceRelease
  | [] => []
  | release :: rest =>
    (release.jobs.filter (fun providedJob => providedJob == requiredJob)).map (fun _ => release)
      ++ releasesThatProvideJob requiredJob rest

/-- Source: findReleaseForJob. -/
def findReleaseForJob (requiredJob : String) (releases : List ServiceRelease) : Except String ServiceRelease :=
  match releasesThatProvideJob requiredJob releases with
  | [] => .error ("no release provided for job " ++ requiredJob)
  | [release] => .ok release
  | r1 :: r2 :: rest =>
    .error ("job " ++ requiredJob ++ " defined in multiple releases: "
      ++ String.intercalate ", " ((r1 :: r2 :: rest).map (fun release => release.name)))

/-- Source: gatherJobs. -/
def gatherJobs (releases : List ServiceRelease) : Except String (List BoshJob) :=
  match findReleaseForJob RedisServerJobName releases with
  | .error e => .error e
  | .ok release => .ok [{ name := RedisServerJobName, release := release.name }]

/-- Source: redisPlanProperties. Reads
manifest.InstanceGroups[0].Properties["redis"] with an unchecked type
assertion: an empty instance-group list, a missing "redis" key or a
non-map value is a Go panic. -/
def redisPlanProperties (manifest : BoshManifest) : Outcome Props :=
  match manifest.instanceGroups with
  | [] => .panic
  | ig :: _ =>
    match ig.properties.lookup "redis" with
    | some (GoVal.vmap props) => .ok props
    | _ => .panic

/-- Source: findOldManifestRedisRelease. -/
def findOldManifestRedisRelease (redisReleaseName : String) (previousManifestReleases : List BoshRelease) : Except String BoshRelease :=
  match previousManifestReleases.find? (fun oldManifestRelease => oldManifestRelease.name == redisReleaseName) with
  | some r => .ok r
  | none => .error ("no release with name " ++ redisReleaseName ++ " found in previous manifest")

/-- Source: oldGreaterThanNew. Component-wise early-out comparison of the
two (major, minor, patch) triples. -/
def oldGreaterThanNew (oldMajorVersion oldMinorVersion oldPatchVersion newMajorVersion newMinorVersion newPatchVersion : Int) : Bool :=
  if oldMajorVersion ≠ newMajorVersion then decide (oldMajorVersion > newMajorVersion)
  else if oldMinorVersion ≠ newMinorVersion then decide (oldMinorVersion > newMinorVersion)
  else decide (oldPatchVersion > newPatchVersion)

/-- Source: validUpgradePath. -/
def validUpgradePath (previousManifest : BoshManifest) (serviceReleases : List ServiceRelease) : Except String Unit :=
  match findReleaseForJob RedisServerJobName serviceReleases with
  | .error e => .error e
  | .ok newRedisRelease =>
    match findOldManifestRedisRelease newRedisRelease.name previousManifest.releases with
    | .error e => .error e
    | .ok oldRedisRelease =>
      if newRedisRelease.version = "latest" ∨ oldRedisRelease.version = "latest" then .ok ()
      else
        match parseReleaseVersion newRedisRelease.version with
        | .error e => .error e
        | .ok (newMajorVersion, newMinorVersion, newPatchVersion) =>
          match parseReleaseVersion oldRedisRelease.version with
          | .error e => .error e
          | .ok (oldMajorVersion, oldMinorVersion, oldPatchVersion) =>
            if oldGreaterThanNew oldMajorVersion oldMinorVersion oldPatchVersion newMajorVersion newMinorVersion newPatchVersion then
              .error ("error generating manifest: new release version " ++ newRedisRelease.version
                ++ " is lower than existing release version " ++ oldRedisRelease.version)
            else .ok ()

/-- The `var previousRedisProperties` assignment at the top of
redisServerProperties: none when no previous manifest was supplied. -/
def previousRedisPropsOf : Option BoshManifest → Outcome (Option Props)
  | some pm => Outcome.bind (redisPlanProperties pm) (fun p => .ok (some p))
  | none => .ok none

/-- Source: passwordForRedisServer. Reuses the previous password via an
unchecked string type assertion (absent or non-string panics); otherwise
invokes the pluggable password generator. -/
def passwordForRedisServer (previousManifestProperties : Option Props) (pwgen : Except String String) : Outcome String :=
  match previousManifestProperties with
  | some props =>
    match props.lookup "password" with
    | some (GoVal.str s) => .ok s
    | _ => .panic
  | none =>
    match pwgen with
    | .ok s => .ok s
    | .error e => .err e

/-- Source: maxClientsForRedisServer. Caller parameter (float64, truncated
to int) wins, then the previous manifest value (int), then 10000; unchecked
type assertions panic on other value types. -/
def maxClientsForRedisServer (arbitraryParams : Props) (previousManifestProperties : Option Props) : Outcome Int :=
  match arbitraryParams.lookup "maxclients" with
  | some configuredMax =>
    match configuredMax with
    | GoVal.num k => .ok k
    | _ => .panic
  | none =>
    match previousManifestProperties with
    | some props =>
      match props.lookup "maxclients" with
      | some (GoVal.int k) => .ok k
      | _ => .panic
    | none => .ok 10000

/-- Source: persistenceForRedisServer. Missing plan property is logged and
returned as a generic empty error; a non-bool value panics. -/
def persistenceForRedisServer (planProperties : Props) : Outcome String :=
  match planProperties.lookup RedisServerPersistencePropertyKey with
  | none => .err ""
  | some (GoVal.bool b) => .ok (if b then "yes" else "no")
  | some _ => .panic

/-- Source: redisServerProperties (the deploymentName parameter is unused
by the source as well). -/
def redisServerProperties (deploymentName : String) (planProperties : Props) (arbitraryParams : Props) (previousManifest : Option BoshManifest) (pwgen : Except String String) : Outcome Props :=
  Outcome.bind (previousRedisPropsOf previousManifest) fun previousRedisProperties =>
  Outcome.bind (persistenceForRedisServer planProperties) fun persistence =>
  Outcome.bind (passwordForRedisServer previousRedisProperties pwgen) fun password =>
  Outcome.bind (maxClientsForRedisServer arbitraryParams previousRedisProperties) fun maxClients =>
  Outcome.ok [("redis", GoVal.vmap
    [("persistence", GoVal.str persistence),
     ("password", GoVal.str password),
     ("maxclients", GoVal.int maxClients)])]

/-- Source: ManifestGenerator.GenerateManifest. The previousPlan argument
is accepted and ignored, as in the source. -/
def GenerateManifest (pwgen : Except String String) (serviceDeployment : ServiceDeployment) (plan : Plan) (arbitraryParameters : Props) (previousManifest : Option BoshManifest) (previousPlan : Option Plan) : Outcome BoshManifest :=
  if findIllegalArbitraryParams arbitraryParameters ≠ [] then
    .err ("unsupported parameter(s) for this service plan: "
      ++ String.intercalate ", " (findIllegalArbitraryParams arbitraryParameters))
  else
    match (match previousManifest with
           | some prev => validUpgradePath prev serviceDeployment.releases
           | none => Except.ok ()) with
    | .error e => .err e
    | .ok _ =>
      match findRedisServerInstanceGroup plan with
      | none => .err "Contact your operator, service configuration issue occurred"
      | some redisServerInstanceGroup =>
        Outcome.bind (redisServerProperties serviceDeployment.deploymentName plan.properties arbitraryParameters previousManifest pwgen) fun redisProperties =>
        match gatherJobs serviceDeployment.releases with
        | .error e => .err e
        | .ok jobs =>
          .ok
            { name := serviceDeployment.deploymentName
              releases := serviceDeployment.releases.map (fun release =>
                { name := release.name, version := release.version })
              stemcells := [{ alias_ := "only-stemcell"
                              os := serviceDeployment.stemcell.os
                              version := serviceDeployment.stemcell.version }]
              instanceGroups := [{ name := RedisServerJobName
                                   instances := redisServerInstanceGroup.instances
                                   jobs := jobs
                                   vmType := redisServerInstanceGroup.vmType
                                   vmExtensions := redisServerInstanceGroup.vmExtensions
                                   persistentDiskType := redisServerInstanceGroup.persistentDiskType
                                   stemcell := "only-stemcell"
                                   networks := redisServerInstanceGroup.networks.map (fun network => { name := network })
                                   azs := redisServerInstanceGroup.azs
                                   properties := redisProperties }]
              update := generateUpdateBlock plan.update
              properties := [] }

/-- bosh.BoshVMs: instance-group name to list of instance addresses. -/
abbrev BoshVMs := List (String × List String)

/-- serviceadapter.ManifestSecrets (map[string]string); the surrounding
Option distinguishes a nil map from a present one. -/
abbrev ManifestSecrets := List (String × String)

/-- The credentials map returned by CreateBinding, as a closed record:
host, port, generated_secret, password and secret keys. -/
structure BindingCreds where
  host : String
  port : Int
  generatedSecret : String
  password : String
  secret : String
  deriving Repr, DecidableEq

/-- Source: getRedisHost. The topology must hold exactly one instance
group, and the redis-server group exactly one address. -/
def getRedisHost (deploymentTopology : BoshVMs) : Except String String :=
  if deploymentTopology.length ≠ 1 then
    .error ("expected 1 instance group in the Redis deployment, got "
      ++ toString deploymentTopology.length)
  else
    match (deploymentTopology.lookup "redis-server").getD [] with
    | [ip] => .ok ip
    | ips =>
      .error ("expected redis-server instance group to have only 1 instance, got "
        ++ toString ips.length)

/-- The generatedSecret block of CreateBinding: the fixed key is looked up
only when a secrets bundle was supplied; a nil bundle yields the empty
string. -/
def generatedSecretOf (secrets : Option ManifestSecrets) : Except String String :=
  match secrets with
  | none => Except.ok ""
  | some bundle =>
    match bundle.lookup "secret_pass" with
    | some v => Except.ok v
    | none => Except.error "manifest wasn\x27t correctly interpolated: missing value for `secret_pass`"

/-- Decision procedure for the anchored Go regular expression that a
credhub reference must match (a nonempty parenthesis-free name wrapped in
double parentheses): returns the captured inner name. -/
def credhubRefName (pathWithParens : String) : Option String :=
  match pathWithParens.toList with
  | '(' :: '(' :: rest =>
    match rest.reverse with
    | ')' :: ')' :: revMid =>
      let mid := revMid.reverse
      if mid.isEmpty then none
      else if mid.all (fun c => c != '(' && c != ')') then some (String.mk mid)
      else none
    | _ => none
  | _ => none

/-- The secretFromConfigStore block of CreateBinding: empty when the
manifest declares no secret property; otherwise the property must be a
string matching the credhub reference grammar and the captured name must
be present in the secrets bundle (a nil bundle has no keys). -/
def secretFromConfigStoreOf (props : Props) (secrets : Option ManifestSecrets) : Outcome String :=
  match props.lookup "secret" with
  | none => Outcome.ok ""
  | some (GoVal.str pathWithParens) =>
    match credhubRefName pathWithParens with
    | none => Outcome.err ("expecting a credhub ref string with format ((xxx)), but got: " ++ pathWithParens)
    | some path =>
      match (secrets.getD []).lookup path with
      | some s => Outcome.ok s
      | none => Outcome.err ("secret \x27" ++ path ++ "\x27 not present in manifest secrets passed to bind")
  | some _ => Outcome.err "secret in manifest was not a string. expecting a credhub ref string"

/-- Source: Binder.CreateBinding. The ArbitraryContext/Platform check only
logs and is dropped; a getRedisHost failure is logged in detail but
surfaced to the caller as an empty error; the final password read is an
unchecked string type assertion (panic on absent or non-string). -/
def CreateBinding (deploymentTopology : BoshVMs) (manifest : BoshManifest) (secrets : Option ManifestSecrets) : Outcome BindingCreds :=
  match getRedisHost deploymentTopology with
  | .error _ => .err ""
  | .ok redisHost =>
    match generatedSecretOf secrets with
    | .error e => .err e
    | .ok generatedSecret =>
      Outcome.bind (redisPlanProperties manifest) fun props =>
      Outcome.bind (secretFromConfigStoreOf props secrets) fun secretFromConfigStore =>
      match props.lookup "password" with
      | some (GoVal.str password) =>
        .ok { host := redisHost
              port := RedisServerPort
              generatedSecret := generatedSecret
              password := password
              secret := secretFromConfigStore }
      | _ => .panic

/-- Source: Binder.DeleteBinding always succeeds. -/
def DeleteBinding : Except String Unit := .ok ()

/-- Observer: the redis password stored in the properties of the first
instance group of a manifest, when present as a string. -/
def manifestRedisPassword (m : BoshManifest) : Option String :=
  match redisPlanProperties m with
  | .ok props =>
    match props.lookup "password" with
    | some (GoVal.str s) => some s
    | _ => none
  | _ => none

/-- Observer: the redis maxclients integer stored in the properties of the
first instance group of a manifest. -/
def manifestMaxclients (m : BoshManifest) : Option Int :=
  match redisPlanProperties m with
  | .ok props =>
    match props.lookup "maxclients" with
    | some (GoVal.int k) => some k
    | _ => none
  | _ => none

/-- The strict lexicographic order on (major, minor, patch) triples that
the specification describes, written independently of the source
comparison. -/
def specLexGT (old new : Int × Int × Int) : Prop :=
  old.1 > new.1 ∨ (old.1 = new.1 ∧ (old.2.1 > new.2.1 ∨ (old.2.1 = new.2.1 ∧ old.2.2 > new.2.2)))

instance (old new : Int × Int × Int) : Decidable (specLexGT old new) := by
  unfold specLexGT; infer_instance

/-- Example fixture: a release providing the redis-server job. -/
def exRelease : ServiceRelease :=
  { name := "redis-release", version := "2.4", jobs := ["redis-server"] }

def exStemcell : ServiceStemcell := { os := "ubuntu-xenial", version := "456.30" }

def exDeployment : ServiceDeployment :=
  { deploymentName := "service-instance_abc", releases := [exRelease], stemcell := exStemcell }

def exInstanceGroup : InstanceGroupSpec :=
  { name := "redis-server", instances := 1, vmType := "small", vmExtensions := [],
    persistentDiskType := "10GB", networks := ["net1"], azs := ["z1"] }

def exPlan : Plan :=
  { instanceGroups := [exInstanceGroup],
    properties := [("persistence", GoVal.bool true)],
    update := none }

def exPrevProps : Props :=
  [("redis", GoVal.vmap
    [("persistence", GoVal.str "yes"),
     ("password", GoVal.str "oldpassword"),
     ("maxclients", GoVal.int 42)])]

def exUpdate : UpdateBlock :=
  { canaries := 1, canaryWatchTime := "30000-240000", updateWatchTime := "30000-240000",
    maxInFlight := 4, serial := none }

def exPrevInstanceGroup : BoshInstanceGroup :=
  { name := "redis-server", instances := 1,
    jobs := [{ name := "redis-server", release := "redis-release" }],
    vmType := "small", vmExtensions := [], persistentDiskType := "10GB",
    stemcell := "only-stemcell", networks := [{ name := "net1" }], azs := ["z1"],
    properties := exPrevProps }

/-- Example fixture: a previous manifest at release version 2.3. -/
def exPrevManifest : BoshManifest :=
  { name := "service-instance_abc",
    releases := [{ name := "redis-release", version := "2.3" }],
    stemcells := [{ alias_ := "only-stemcell", os := "ubuntu-xenial", version := "456.30" }],
    instanceGroups := [exPrevInstanceGroup],
    update := exUpdate,
    properties := [] }

/-- Example fixture: a previous manifest whose redis properties lack the
password key. -/
def exNoPasswordManifest : BoshManifest :=
  { exPrevManifest with
    instanceGroups := [{ exPrevInstanceGroup with
      properties := [("redis", GoVal.vmap [("maxclients", GoVal.int 42)])] }] }

/-- Example fixture: a previous manifest already at version 2.5. -/
def exPrevManifest25 : BoshManifest :=
  { exPrevManifest with releases := [{ name := "redis-release", version := "2.5" }] }

/-- Example fixture: a previous manifest with an unparseable version. -/
def exPrevManifestGarbage : BoshManifest :=
  { exPrevManifest with releases := [{ name := "redis-release", version := "not-a-version" }] }

/-- Example fixture: a deployment offering release version 2.10. -/
def exDeployment210 : ServiceDeployment :=
  { exDeployment with releases := [{ exRelease with version := "2.10" }] }

/-- Example fixture: a deployment offering the floating latest version. -/
def exDeploymentLatest : ServiceDeployment :=
  { exDeployment with releases := [{ exRelease with version := "latest" }] }

def exTopology : BoshVMs := [("redis-server", ["10.0.0.1"])]

/-- Example fixture: a deployed manifest declaring a credhub secret
reference in its redis properties. -/
def exBindManifest : BoshManifest :=
  { exPrevManifest with
    instanceGroups := [{ exPrevInstanceGroup with
      properties := [("redis", GoVal.vmap
        [("password", GoVal.str "redispass"),
         ("secret", GoVal.str "((my/path))")])] }] }

def exSecrets : ManifestSecrets := [("secret_pass", "genpass"), ("my/path", "xyz")]

/-- Inversion: a successful Outcome.bind splits into two successes. -/
theorem bind_ok {α β : Type} {x : Outcome α} {f : α → Outcome β} {b : β}
    (h : Outcome.bind x f = .ok b) : ∃ a, x = .ok a ∧ f a = .ok b := by
  cases x with
  | ok a => exact ⟨a, rfl, h⟩
  | err e => simp [Outcome.bind] at h
  | panic => simp [Outcome.bind] at h

/-- Inversion of a successful GenerateManifest call: the parameter check
passed, the upgrade path validated, and the output holds exactly one
instance group carrying the resolved properties and gathered jobs. -/
theorem generateManifest_ok_inv {pwgen : Except String String} {sd : ServiceDeployment}
    {plan : Plan} {arb : Props} {prev : Option BoshManifest} {pp : Option Plan} {m : BoshManifest}
    (h : GenerateManifest pwgen sd plan arb prev pp = .ok m) :
    findIllegalArbitraryParams arb = [] ∧
    (∀ pm, prev = some pm → validUpgradePath pm sd.releases = .ok ()) ∧
    ∃ ig props jobs,
      findRedisServerInstanceGroup plan = some ig ∧
      redisServerProperties sd.deploymentName plan.properties arb prev pwgen = .ok props ∧
      gatherJobs sd.releases = .ok jobs ∧
      m.instanceGroups.map (fun g => g.properties) = [props] ∧
      m.instanceGroups.map (fun g => g.jobs) = [jobs] := by
  unfold GenerateManifest at h
  split at h
  · simp at h
  · rename_i hIllegal
    split at h
    · simp at h
    · rename_i u hUpgrade
      split at h
      · simp at h
      · rename_i ig hIg
        obtain ⟨props, hProps, h⟩ := bind_ok h
        split at h
        · simp at h
        · rename_i jobs hJobs
          injection h with h
          subst h
          refine ⟨not_ne_iff.mp hIllegal, ?_, ig, props, jobs, hIg, hProps, hJobs, by simp, by simp⟩
          intro pm hpm
          subst hpm
          cases u
          exact hUpgrade

/-- Inversion of a successful redisServerProperties call. -/
theorem redisServerProperties_ok_inv {dn : String} {planProps arb : Props}
    {prev : Option BoshManifest} {pwgen : Except String String} {props : Props}
    (h : redisServerProperties dn planProps arb prev pwgen = .ok props) :
    ∃ prevProps persistence password maxClients,
      previousRedisPropsOf prev = .ok prevProps ∧
      persistenceForRedisServer planProps = .ok persistence ∧
      passwordForRedisServer prevProps pwgen = .ok password ∧
      maxClientsForRedisServer arb prevProps = .ok maxClients ∧
      props = [("redis", GoVal.vmap
        [("persistence", GoVal.str persistence),
         ("password", GoVal.str password),
         ("maxclients", GoVal.int maxClients)])] := by
  unfold redisServerProperties at h
  obtain ⟨pp, h1, h⟩ := bind_ok h
  obtain ⟨pers, h2, h⟩ := bind_ok h
  obtain ⟨pw, h3, h⟩ := bind_ok h
  obtain ⟨mc, h4, h⟩ := bind_ok h
  injection h with h5
  exact ⟨pp, pers, pw, mc, h1, h2, h3, h4, h5.symm⟩

/-- Inversion: reusing a previous password succeeds only when the previous
properties hold it as a string. -/
theorem passwordForRedisServer_ok_some {props : Props} {pwgen : Except String String} {p : String}
    (h : passwordForRedisServer (some props) pwgen = .ok p) :
    props.lookup "password" = some (GoVal.str p) := by
  simp only [passwordForRedisServer] at h
  split at h
  · rename_i s hLook
    injection h with h
    subst h
    exact hLook
  · simp at h

/-- Inversion: with no previous manifest the password is exactly the
generator output. -/
theorem passwordForRedisServer_ok_none {pwgen : Except String String} {p : String}
    (h : passwordForRedisServer none pwgen = .ok p) : pwgen = .ok p := by
  simp only [passwordForRedisServer] at h
  split at h
  · rename_i s
    injection h with h
    subst h
    rfl
  · simp at h

/-- Inversion of the previous-properties assignment for an update call. -/
theorem previousRedisPropsOf_ok_some {pm : BoshManifest} {pp : Option Props}
    (h : previousRedisPropsOf (some pm) = .ok pp) :
    ∃ props, pp = some props ∧ redisPlanProperties pm = .ok props := by
  unfold previousRedisPropsOf at h
  obtain ⟨props, h1, h2⟩ := bind_ok h
  injection h2 with h2
  exact ⟨props, h2.symm, h1⟩

/-- Reading the password observer on a freshly assembled manifest. -/
theorem manifestRedisPassword_assembled {g : BoshInstanceGroup} {m : BoshManifest}
    {pers pw : String} {mc : Int} (hig : m.instanceGroups = [g])
    (hgp : g.properties = [("redis", GoVal.vmap
      [("persistence", GoVal.str pers), ("password", GoVal.str pw), ("maxclients", GoVal.int mc)])]) :
    manifestRedisPassword m = some pw := by
  unfold manifestRedisPassword redisPlanProperties
  rw [hig]
  simp [hgp, List.lookup]

/-- Reading the maxclients observer on a freshly assembled manifest. -/
theorem manifestMaxclients_assembled {g : BoshInstanceGroup} {m : BoshManifest}
    {pers pw : String} {mc : Int} (hig : m.instanceGroups = [g])
    (hgp : g.properties = [("redis", GoVal.vmap
      [("persistence", GoVal.str pers), ("password", GoVal.str pw), ("maxclients", GoVal.int mc)])]) :
    manifestMaxclients m = some mc := by
  unfold manifestMaxclients redisPlanProperties
  rw [hig]
  simp [hgp, List.lookup]

/-- A singleton map image forces a singleton list. -/
theorem map_eq_singleton_inv {α β : Type} {f : α → β} {l : List α} {b : β}
    (h : l.map f = [b]) : ∃ a, l = [a] ∧ f a = b := by
  cases l with
  | nil => simp at h
  | cons x xs =>
    cases xs with
    | nil => simp at h; exact ⟨x, rfl, h⟩
    | cons y ys => simp at h

/-- Claim C1: for every GenerateManifest call with a previous manifest, the
password in the output manifest instance-group properties equals the
previous manifest password verbatim, regardless of any other input; for
every call without a previous manifest, the password is exactly the value
produced by the pluggable password generator (and hence never taken from
the caller-supplied arbitrary parameters, which the generator does not
see). -/
theorem password_lifecycle (pwgen : Except String String) (sd : ServiceDeployment)
    (plan : Plan) (arb : Props) (pp : Option Plan) :
    (∀ pm m, GenerateManifest pwgen sd plan arb (some pm) pp = .ok m →
      ∃ p, manifestRedisPassword pm = some p ∧ manifestRedisPassword m = some p) ∧
    (∀ m, GenerateManifest pwgen sd plan arb none pp = .ok m →
      ∃ p, pwgen = .ok p ∧ manifestRedisPassword m = some p) := by
  constructor
  · intro pm m h
    obtain ⟨-, -, ig, props, jobs, -, hProps, -, hMap, -⟩ := generateManifest_ok_inv h
    obtain ⟨prevProps, pers, pw, mc, h1, h2, h3, h4, h5⟩ := redisServerProperties_ok_inv hProps
    obtain ⟨pprops, hpp, hPlan⟩ := previousRedisPropsOf_ok_some h1
    subst hpp
    have hLook := passwordForRedisServer_ok_some h3
    obtain ⟨g, hig, hgp⟩ := map_eq_singleton_inv hMap
    refine ⟨pw, ?_, manifestRedisPassword_assembled hig (hgp.trans h5)⟩
    simp [manifestRedisPassword, hPlan, hLook]
  · intro m h
    obtain ⟨-, -, ig, props, jobs, -, hProps, -, hMap, -⟩ := generateManifest_ok_inv h
    obtain ⟨prevProps, pers, pw, mc, h1, h2, h3, h4, h5⟩ := redisServerProperties_ok_inv hProps
    have hpp : prevProps = none := by
      simp only [previousRedisPropsOf] at h1
      injection h1 with h1
      exact h1.symm
    subst hpp
    have hgen := passwordForRedisServer_ok_none h3
    obtain ⟨g, hig, hgp⟩ := map_eq_singleton_inv hMap
    exact ⟨pw, hgen, manifestRedisPassword_assembled hig (hgp.trans h5)⟩

/-- Witness for password_lifecycle: an update call keeps oldpassword, a
create call uses the generator output fresh. -/
theorem password_lifecycle_witness :
    (∃ m, GenerateManifest (Except.ok "fresh") exDeployment exPlan [] (some exPrevManifest) none = Outcome.ok m ∧
      ∃ p, manifestRedisPassword exPrevManifest = some p ∧ manifestRedisPassword m = some p) ∧
    (∃ m, GenerateManifest (Except.ok "fresh") exDeployment exPlan [] none none = Outcome.ok m ∧
      ∃ p, (Except.ok "fresh" : Except String String) = Except.ok p ∧ manifestRedisPassword m = some p) := by
  constructor
  · exact ⟨_, rfl, (password_lifecycle (Except.ok "fresh") exDeployment exPlan [] none).1 exPrevManifest _ rfl⟩
  · exact ⟨_, rfl, (password_lifecycle (Except.ok "fresh") exDeployment exPlan [] none).2 _ rfl⟩

/-- Claim C5: on every successful GenerateManifest call the output
maxclients is resolved with precedence: caller parameter first, previous
manifest value second, default 10000 last. -/
theorem maxclients_precedence {pwgen : Except String String} {sd : ServiceDeployment}
    {plan : Plan} {arb : Props} {prev : Option BoshManifest} {pp : Option Plan} {m : BoshManifest}
    (h : GenerateManifest pwgen sd plan arb prev pp = .ok m) :
    (∀ k : Int, arb.lookup "maxclients" = some (GoVal.num k) → manifestMaxclients m = some k) ∧
    (arb.lookup "maxclients" = none →
      ∀ pm pprops2 j, prev = some pm → redisPlanProperties pm = .ok pprops2 →
        pprops2.lookup "maxclients" = some (GoVal.int j) → manifestMaxclients m = some j) ∧
    (arb.lookup "maxclients" = none → prev = none → manifestMaxclients m = some 10000) := by
  obtain ⟨-, -, ig, props0, jobs, -, hProps, -, hMap, -⟩ := generateManifest_ok_inv h
  obtain ⟨prevProps, pers, pw, mc, h1, h2, h3, h4, h5⟩ := redisServerProperties_ok_inv hProps
  obtain ⟨g, hig, hgp⟩ := map_eq_singleton_inv hMap
  have hOut : manifestMaxclients m = some mc := manifestMaxclients_assembled hig (hgp.trans h5)
  refine ⟨?_, ?_, ?_⟩
  · intro k hk
    simp only [maxClientsForRedisServer, hk] at h4
    injection h4 with h4
    rw [hOut, h4]
  · intro hnone pm pprops2 j hpm hplan hlook
    subst hpm
    obtain ⟨pprops, hppEq, hPlan2⟩ := previousRedisPropsOf_ok_some h1
    subst hppEq
    have hpp2 : pprops2 = pprops := by
      rw [hPlan2] at hplan
      injection hplan with e
      exact e.symm
    subst hpp2
    simp only [maxClientsForRedisServer, hnone, hlook] at h4
    injection h4 with h4
    rw [hOut, h4]
  · intro hnone hprev
    subst hprev
    have hpp : prevProps = none := by
      simp only [previousRedisPropsOf] at h1
      injection h1 with e
      exact e.symm
    subst hpp
    simp only [maxClientsForRedisServer, hnone] at h4
    injection h4 with h4
    rw [hOut, ← h4]

/-- Witness for maxclients_precedence: each of the three branches at a
concrete input. -/
theorem maxclients_precedence_witness :
    (∃ m, GenerateManifest (Except.ok "pw") exDeployment exPlan [("maxclients", GoVal.num 500)] none none = Outcome.ok m ∧
      manifestMaxclients m = some 500) ∧
    (∃ m, GenerateManifest (Except.ok "pw") exDeployment exPlan [] (some exPrevManifest) none = Outcome.ok m ∧
      manifestMaxclients m = some 42) ∧
    (∃ m, GenerateManifest (Except.ok "pw") exDeployment exPlan [] none none = Outcome.ok m ∧
      manifestMaxclients m = some 10000) := by
  refine ⟨⟨_, rfl, ?_⟩, ⟨_, rfl, ?_⟩, ⟨_, rfl, ?_⟩⟩
  · exact (@maxclients_precedence (Except.ok "pw") exDeployment exPlan
      [("maxclients", GoVal.num 500)] none none _ rfl).1 500 rfl
  · exact (@maxclients_precedence (Except.ok "pw") exDeployment exPlan
      [] (some exPrevManifest) none _ rfl).2.1 rfl exPrevManifest _ 42 rfl rfl rfl
  · exact (@maxclients_precedence (Except.ok "pw") exDeployment exPlan
      [] none none _ rfl).2.2 rfl rfl

/-- The early-out comparison of the source computes exactly the strict
lexicographic order on (major, minor, patch) triples. -/
theorem oldGreaterThanNew_iff (a b c d e f : Int) :
    oldGreaterThanNew a b c d e f = true ↔ specLexGT (a, b, c) (d, e, f) := by
  have hs : specLexGT (a, b, c) (d, e, f) ↔
      (a > d ∨ (a = d ∧ (b > e ∨ (b = e ∧ c > f)))) := Iff.rfl
  rw [hs]
  unfold oldGreaterThanNew
  split
  · rename_i h1
    simp only [decide_eq_true_eq]
    omega
  · rename_i h1
    split
    · rename_i h2
      simp only [decide_eq_true_eq]
      omega
    · rename_i h2
      simp only [decide_eq_true_eq]
      omega

/-- Claim C2: with a previous manifest, a unique resolvable redis release,
a matching previous release, neither version latest and both versions
parsing, upgrade validation fails exactly when the old triple is
lexicographically greater than the new one, the failure message naming
both version strings, and the failure aborts manifest generation with that
message (the parameter check having passed). -/
theorem upgrade_downgrade_iff {sd : ServiceDeployment} {prev : BoshManifest}
    {newRel : ServiceRelease} {oldRel : BoshRelease} {nMj nMn nPt oMj oMn oPt : Int}
    (pwgen : Except String String) (plan : Plan) (arb : Props) (pp : Option Plan)
    (hArb : findIllegalArbitraryParams arb = [])
    (hNew : findReleaseForJob RedisServerJobName sd.releases = .ok newRel)
    (hOld : findOldManifestRedisRelease newRel.name prev.releases = .ok oldRel)
    (hNL : newRel.version ≠ "latest") (hOL : oldRel.version ≠ "latest")
    (hPN : parseReleaseVersion newRel.version = .ok (nMj, nMn, nPt))
    (hPO : parseReleaseVersion oldRel.version = .ok (oMj, oMn, oPt)) :
    (specLexGT (oMj, oMn, oPt) (nMj, nMn, nPt) ↔
      validUpgradePath prev sd.releases = .error
        ("error generating manifest: new release version " ++ newRel.version
          ++ " is lower than existing release version " ++ oldRel.version)) ∧
    (¬ specLexGT (oMj, oMn, oPt) (nMj, nMn, nPt) → validUpgradePath prev sd.releases = .ok ()) ∧
    (specLexGT (oMj, oMn, oPt) (nMj, nMn, nPt) →
      GenerateManifest pwgen sd plan arb (some prev) pp = .err
        ("error generating manifest: new release version " ++ newRel.version
          ++ " is lower than existing release version " ++ oldRel.version)) := by
  have hlatest : ¬(newRel.version = "latest" ∨ oldRel.version = "latest") := not_or.mpr ⟨hNL, hOL⟩
  have hVU : validUpgradePath prev sd.releases =
      if oldGreaterThanNew oMj oMn oPt nMj nMn nPt then
        Except.error ("error generating manifest: new release version " ++ newRel.version
          ++ " is lower than existing release version " ++ oldRel.version)
      else Except.ok () := by
    unfold validUpgradePath
    rw [hNew]
    simp only [hOld, hPN, hPO, if_neg hlatest]
  have hOk : ¬ specLexGT (oMj, oMn, oPt) (nMj, nMn, nPt) → validUpgradePath prev sd.releases = .ok () := by
    intro hgt
    rw [hVU, if_neg]
    simp only [oldGreaterThanNew_iff]
    exact hgt
  have hErr : specLexGT (oMj, oMn, oPt) (nMj, nMn, nPt) → validUpgradePath prev sd.releases = .error
      ("error generating manifest: new release version " ++ newRel.version
        ++ " is lower than existing release version " ++ oldRel.version) := by
    intro hgt
    rw [hVU, if_pos ((oldGreaterThanNew_iff oMj oMn oPt nMj nMn nPt).mpr hgt)]
  refine ⟨⟨hErr, ?_⟩, hOk, ?_⟩
  · intro herr
    by_contra hgt
    rw [hOk hgt] at herr
    simp at herr
  · intro hgt
    unfold GenerateManifest
    rw [if_neg (not_ne_iff.mpr hArb)]
    simp only [hErr hgt]

/-- Witness for upgrade_downgrade_iff: old 2.5 against new 2.4 fails with
the message naming both, old 2.5 against new 2.10 passes (numeric, not
string, comparison). -/
theorem upgrade_downgrade_iff_witness :
    GenerateManifest (Except.ok "pw") exDeployment exPlan [] (some exPrevManifest25) none =
      .err "error generating manifest: new release version 2.4 is lower than existing release version 2.5" ∧
    validUpgradePath exPrevManifest25 exDeployment210.releases = .ok () := by
  constructor
  · exact (@upgrade_downgrade_iff exDeployment exPrevManifest25 exRelease
      ⟨"redis-release", "2.5"⟩ 2 4 0 2 5 0 (Except.ok "pw") exPlan [] none
      rfl rfl rfl (by decide) (by decide) rfl rfl).2.2 (by decide)
  · exact (@upgrade_downgrade_iff exDeployment210 exPrevManifest25 ⟨"redis-release", "2.10", ["redis-server"]⟩
      ⟨"redis-release", "2.5"⟩ 2 10 0 2 5 0 (Except.ok "pw") exPlan [] none
      rfl rfl rfl (by decide) (by decide) rfl rfl).2.1 (by decide)

/-- Claim C3: when the resolved new release version or the matching
previous release version is the literal latest, upgrade validation passes
unconditionally, whatever the other side holds. -/
theorem latest_version_always_valid {sd : ServiceDeployment} {prev : BoshManifest}
    {newRel : ServiceRelease} {oldRel : BoshRelease}
    (hNew : findReleaseForJob RedisServerJobName sd.releases = .ok newRel)
    (hOld : findOldManifestRedisRelease newRel.name prev.releases = .ok oldRel)
    (hLatest : newRel.version = "latest" ∨ oldRel.version = "latest") :
    validUpgradePath prev sd.releases = .ok () := by
  unfold validUpgradePath
  rw [hNew]
  simp only [hOld, if_pos hLatest]

/-- Witness for latest_version_always_valid: a latest new release against a
previous version that does not even parse. -/
theorem latest_version_always_valid_witness :
    validUpgradePath exPrevManifestGarbage exDeploymentLatest.releases = .ok () :=
  @latest_version_always_valid exDeploymentLatest exPrevManifestGarbage
    ⟨"redis-release", "latest", ["redis-server"]⟩ ⟨"redis-release", "not-a-version"⟩
    rfl rfl (Or.inl rfl)

/-- A job listed by no release produces an empty match list. -/
theorem releasesThatProvideJob_nil_iff (job : String) (rels : List ServiceRelease) :
    releasesThatProvideJob job rels = [] ↔ ∀ r ∈ rels, job ∉ r.jobs := by
  induction rels with
  | nil => simp [releasesThatProvideJob]
  | cons r rest ih =>
    simp only [releasesThatProvideJob, List.append_eq_nil, List.map_eq_nil_iff,
      List.filter_eq_nil_iff, ih, List.mem_cons, beq_iff_eq]
    constructor
    · rintro ⟨h1, h2⟩ x hx
      rcases hx with hx | hx
      · subst hx
        intro hmem
        exact h1 job hmem rfl
      · exact h2 x hx
    · intro h
      refine ⟨?_, fun x hx => h x (Or.inr hx)⟩
      intro pj hpj hpje
      subst hpje
      exact h r (Or.inl rfl) hpj

/-- Claim C6: resolving the release that provides the redis-server job
errors naming the job when no release lists it, errors naming the job and
all matching release names when several matches exist, and with exactly
one match returns that release, the job list being exactly the one job
bound to it, also inside a successfully generated manifest. -/
theorem release_job_resolution (rels : List ServiceRelease) :
    ((∀ r ∈ rels, RedisServerJobName ∉ r.jobs) →
      findReleaseForJob RedisServerJobName rels =
        .error ("no release provided for job " ++ RedisServerJobName)) ∧
    (∀ r1 r2 rest, releasesThatProvideJob RedisServerJobName rels = r1 :: r2 :: rest →
      findReleaseForJob RedisServerJobName rels =
        .error ("job " ++ RedisServerJobName ++ " defined in multiple releases: "
          ++ String.intercalate ", " ((r1 :: r2 :: rest).map (fun r => r.name)))) ∧
    (∀ r, releasesThatProvideJob RedisServerJobName rels = [r] →
      findReleaseForJob RedisServerJobName rels = .ok r ∧
      gatherJobs rels = .ok [{ name := RedisServerJobName, release := r.name }] ∧
      ∀ pwgen dn st plan arb prev pp m,
        GenerateManifest pwgen ⟨dn, rels, st⟩ plan arb prev pp = .ok m →
        m.instanceGroups.map (fun g => g.jobs) = [[{ name := RedisServerJobName, release := r.name }]]) := by
  refine ⟨?_, ?_, ?_⟩
  · intro h
    have hnil := (releasesThatProvideJob_nil_iff RedisServerJobName rels).mpr h
    simp only [findReleaseForJob, hnil]
  · intro r1 r2 rest h
    simp only [findReleaseForJob, h]
  · intro r h
    have hFind : findReleaseForJob RedisServerJobName rels = .ok r := by
      simp only [findReleaseForJob, h]
    have hJobs : gatherJobs rels = .ok [{ name := RedisServerJobName, release := r.name }] := by
      simp only [gatherJobs, hFind]
    refine ⟨hFind, hJobs, ?_⟩
    intro pwgen dn st plan arb prev pp m hGen
    obtain ⟨-, -, ig, props, jobs, -, -, hJobs2, -, hMap⟩ := generateManifest_ok_inv hGen
    have : jobs = [{ name := RedisServerJobName, release := r.name }] := by
      rw [hJobs] at hJobs2
      injection hJobs2 with e
      exact e.symm
    rw [this] at hMap
    exact hMap

/-- Example fixture: a release not providing the redis-server job. -/
def exReleaseNoJob : ServiceRelease :=
  { name := "other-release", version := "1", jobs := ["other-job"] }

/-- Example fixture: a second release also providing the redis-server job. -/
def exRelease2 : ServiceRelease :=
  { name := "redis-release-2", version := "9", jobs := ["redis-server"] }

/-- Witness for release_job_resolution: the zero, multiple and unique match
cases at concrete release lists. -/
theorem release_job_resolution_witness :
    findReleaseForJob RedisServerJobName [exReleaseNoJob] =
      .error "no release provided for job redis-server" ∧
    findReleaseForJob RedisServerJobName [exRelease, exRelease2] =
      .error "job redis-server defined in multiple releases: redis-release, redis-release-2" ∧
    findReleaseForJob RedisServerJobName [exRelease] = .ok exRelease ∧
    gatherJobs [exRelease] = .ok [{ name := RedisServerJobName, release := "redis-release" }] ∧
    ∃ m, GenerateManifest (Except.ok "pw") ⟨"service-instance_abc", [exRelease], exStemcell⟩ exPlan [] none none = Outcome.ok m ∧
      m.instanceGroups.map (fun g => g.jobs) = [[{ name := RedisServerJobName, release := "redis-release" }]] := by
  refine ⟨?_, ?_, ?_, ?_, ⟨_, rfl, ?_⟩⟩
  · exact (release_job_resolution [exReleaseNoJob]).1 (by decide)
  · exact (release_job_resolution [exRelease, exRelease2]).2.1 exRelease exRelease2 [] rfl
  · exact ((release_job_resolution [exRelease]).2.2 exRelease rfl).1
  · exact ((release_job_resolution [exRelease]).2.2 exRelease rfl).2.1
  · exact ((release_job_resolution [exRelease]).2.2 exRelease rfl).2.2
      (Except.ok "pw") "service-instance_abc" exStemcell exPlan [] none none _ rfl

/-- Membership in the illegal-parameter list is exactly being a key other
than maxclients. -/
theorem findIllegalArbitraryParams_mem (arb : Props) (k : String) :
    k ∈ findIllegalArbitraryParams arb ↔ (k ≠ "maxclients" ∧ ∃ v, (k, v) ∈ arb) := by
  induction arb with
  | nil => simp [findIllegalArbitraryParams]
  | cons kv rest ih =>
    obtain ⟨k2, v2⟩ := kv
    by_cases hk : k2 = "maxclients"
    · subst hk
      simp only [findIllegalArbitraryParams, if_neg (not_ne_iff.mpr rfl), ih, List.mem_cons]
      constructor
      · rintro ⟨hne, v, hv⟩
        exact ⟨hne, v, Or.inr hv⟩
      · rintro ⟨hne, v, hv | hv⟩
        · injection hv with e1 e2
          exact absurd e1 hne
        · exact ⟨hne, v, hv⟩
    · simp only [findIllegalArbitraryParams, if_pos hk, List.mem_cons, ih]
      constructor
      · rintro (hkk | ⟨hne, v, hv⟩)
        · subst hkk
          exact ⟨hk, v2, Or.inl rfl⟩
        · exact ⟨hne, v, Or.inr hv⟩
      · rintro ⟨hne, v, hv | hv⟩
        · injection hv with e1 e2
          exact Or.inl e1
        · exact Or.inr ⟨hne, v, hv⟩

/-- The illegal-parameter list is empty exactly when every key is
maxclients. -/
theorem findIllegalArbitraryParams_nil_iff (arb : Props) :
    findIllegalArbitraryParams arb = [] ↔ ∀ kv ∈ arb, kv.1 = "maxclients" := by
  induction arb with
  | nil => simp [findIllegalArbitraryParams]
  | cons kv rest ih =>
    obtain ⟨k2, v2⟩ := kv
    by_cases hk : k2 = "maxclients"
    · subst hk
      simp [findIllegalArbitraryParams, ih]
    · simp [findIllegalArbitraryParams, hk, ih]

/-- Claim C4 (amended): generation fails on any arbitrary parameter key
other than maxclients, the error naming exactly the disallowed keys,
comma-joined, in the iteration order of the parameter map (Go fixes no
such order, see unsupported_params_order_counterexample); parameters
containing only the maxclients key never fail this check. -/
theorem unsupported_params_check (pwgen : Except String String) (sd : ServiceDeployment)
    (plan : Plan) (arb : Props) (prev : Option BoshManifest) (pp : Option Plan) :
    ((∀ kv ∈ arb, kv.1 = "maxclients") ↔ findIllegalArbitraryParams arb = []) ∧
    (findIllegalArbitraryParams arb ≠ [] →
      GenerateManifest pwgen sd plan arb prev pp = .err
        ("unsupported parameter(s) for this service plan: "
          ++ String.intercalate ", " (findIllegalArbitraryParams arb))) ∧
    (∀ k, k ∈ findIllegalArbitraryParams arb ↔ (k ≠ "maxclients" ∧ ∃ v, (k, v) ∈ arb)) := by
  refine ⟨(findIllegalArbitraryParams_nil_iff arb).symm, ?_, findIllegalArbitraryParams_mem arb⟩
  intro hne
  unfold GenerateManifest
  rw [if_pos hne]

/-- Witness for unsupported_params_check: a single unknown key fails with
the message naming it. -/
theorem unsupported_params_check_witness :
    GenerateManifest (Except.ok "pw") exDeployment exPlan [("foo", GoVal.int 1)] none none =
      .err "unsupported parameter(s) for this service plan: foo" :=
  (unsupported_params_check (Except.ok "pw") exDeployment exPlan
    [("foo", GoVal.int 1)] none none).2.1 (by decide)

/-- Claim C4 counterexample: the two association lists are permutations of
each other, hence denote the same Go parameter map, yet the error message
lists the keys in two different orders: the join order is the iteration
order, which is not a stable function of the map. -/
theorem unsupported_params_order_counterexample :
    List.Perm [("alpha", GoVal.int 1), ("beta", GoVal.int 2)]
      [("beta", GoVal.int 2), ("alpha", GoVal.int 1)] ∧
    GenerateManifest (Except.ok "pw") exDeployment exPlan
      [("alpha", GoVal.int 1), ("beta", GoVal.int 2)] none none =
      .err "unsupported parameter(s) for this service plan: alpha, beta" ∧
    GenerateManifest (Except.ok "pw") exDeployment exPlan
      [("beta", GoVal.int 2), ("alpha", GoVal.int 1)] none none =
      .err "unsupported parameter(s) for this service plan: beta, alpha" :=
  ⟨List.Perm.swap _ _ _, rfl, rfl⟩

/-- Claim C7 counterexample: a previous manifest whose redis properties
lack the password key makes GenerateManifest panic (the failed string type
assertion is a Go runtime crash), not return an error value. -/
theorem missing_password_panic_counterexample :
    GenerateManifest (Except.ok "pw") exDeployment exPlan [] (some exNoPasswordManifest) none =
      Outcome.panic := rfl

/-- Claim C7 (amended): when the previous redis properties hold no
password, or hold one that is not a string, password resolution crashes
with a Go panic from the unchecked type assertion instead of returning an
error value. -/
theorem missing_password_panics (props : Props) (pwgen : Except String String)
    (h : props.lookup "password" = none ∨
      ∃ v, props.lookup "password" = some v ∧ ∀ s, v ≠ GoVal.str s) :
    passwordForRedisServer (some props) pwgen = Outcome.panic := by
  simp only [passwordForRedisServer]
  rcases h with h | ⟨v, hv, hns⟩
  · rw [h]
  · rw [hv]
    cases v with
    | str s => exact absurd rfl (hns s)
    | int k => rfl
    | num k => rfl
    | bool b => rfl
    | vmap l => rfl

/-- Witness for missing_password_panics at a concrete property map. -/
theorem missing_password_panics_witness :
    passwordForRedisServer (some [("maxclients", GoVal.int 42)]) (Except.ok "pw") = Outcome.panic :=
  missing_password_panics [("maxclients", GoVal.int 42)] (Except.ok "pw") (Or.inl rfl)

/-- A detailed getRedisHost failure is surfaced to the CreateBinding
caller as an empty error (the detail goes to the server-side log only). -/
theorem createBinding_err_of_host {topology : BoshVMs} {manifest : BoshManifest}
    {secrets : Option ManifestSecrets} {e : String}
    (hg : getRedisHost topology = .error e) :
    CreateBinding topology manifest secrets = .err "" := by
  unfold CreateBinding
  rw [hg]

/-- getRedisHost error for a topology whose single instance group does not
hold exactly one address. -/
theorem getRedisHost_instance_error (topology : BoshVMs) (hlen : topology.length = 1)
    (hips : ((topology.lookup "redis-server").getD []).length ≠ 1) :
    getRedisHost topology = .error
      ("expected redis-server instance group to have only 1 instance, got "
        ++ toString ((topology.lookup "redis-server").getD []).length) := by
  unfold getRedisHost
  rw [if_neg (not_ne_iff.mpr hlen)]
  rcases hips2 : (topology.lookup "redis-server").getD [] with - | ⟨ip, - | ⟨ip2, rest⟩⟩
  · rfl
  · rw [hips2] at hips
    simp at hips
  · rfl

/-- Claim C8 (amended): any wrong topology cardinality fails the binding;
the error naming the actual count, and distinguishing the wrong
instance-group-count case from the wrong instance-count case, is the
internal getRedisHost error, which is logged server-side, while the error
surfaced to the CreateBinding caller is the generic empty one. -/
theorem topology_cardinality_errors (topology : BoshVMs) (manifest : BoshManifest)
    (secrets : Option ManifestSecrets) :
    (topology.length ≠ 1 →
      getRedisHost topology = .error
        ("expected 1 instance group in the Redis deployment, got " ++ toString topology.length) ∧
      CreateBinding topology manifest secrets = .err "") ∧
    (topology.length = 1 → ((topology.lookup "redis-server").getD []).length ≠ 1 →
      getRedisHost topology = .error
        ("expected redis-server instance group to have only 1 instance, got "
          ++ toString ((topology.lookup "redis-server").getD []).length) ∧
      CreateBinding topology manifest secrets = .err "") := by
  constructor
  · intro hlen
    have hg : getRedisHost topology = .error
        ("expected 1 instance group in the Redis deployment, got " ++ toString topology.length) := by
      unfold getRedisHost
      rw [if_pos hlen]
    exact ⟨hg, createBinding_err_of_host hg⟩
  · intro hlen hips
    have hg := getRedisHost_instance_error topology hlen hips
    exact ⟨hg, createBinding_err_of_host hg⟩

/-- Witness for topology_cardinality_errors: two instance groups, and one
group with two addresses. -/
theorem topology_cardinality_errors_witness :
    (getRedisHost [("g1", ["1.1.1.1"]), ("g2", ["2.2.2.2"])] =
      .error "expected 1 instance group in the Redis deployment, got 2" ∧
     CreateBinding [("g1", ["1.1.1.1"]), ("g2", ["2.2.2.2"])] exPrevManifest none = .err "") ∧
    (getRedisHost [("redis-server", ["1.1.1.1", "2.2.2.2"])] =
      .error "expected redis-server instance group to have only 1 instance, got 2" ∧
     CreateBinding [("redis-server", ["1.1.1.1", "2.2.2.2"])] exPrevManifest none = .err "") :=
  ⟨(topology_cardinality_errors [("g1", ["1.1.1.1"]), ("g2", ["2.2.2.2"])] exPrevManifest none).1
      (by decide),
   (topology_cardinality_errors [("redis-server", ["1.1.1.1", "2.2.2.2"])] exPrevManifest none).2
      (by decide) (by decide)⟩

/-- Claim C8 counterexample: with two instance groups the internal error
names the count 2, but the error returned to the caller is the empty
string, which names no count and distinguishes nothing. -/
theorem topology_error_not_surfaced_counterexample :
    getRedisHost [("g1", ["1.1.1.1"]), ("g2", ["2.2.2.2"])] =
      .error "expected 1 instance group in the Redis deployment, got 2" ∧
    CreateBinding [("g1", ["1.1.1.1"]), ("g2", ["2.2.2.2"])] exPrevManifest none = Outcome.err "" ∧
    "" ≠ "expected 1 instance group in the Redis deployment, got 2" :=
  ⟨rfl, rfl, by decide⟩

/-- CreateBinding after host, generated secret and properties resolve:
what remains is the config-store secret resolution and the password read. -/
theorem createBinding_reduce {topology : BoshVMs} {manifest : BoshManifest}
    {secrets : Option ManifestSecrets} {host gs : String} {props : Props}
    (hHost : getRedisHost topology = .ok host)
    (hGS : generatedSecretOf secrets = .ok gs)
    (hProps : redisPlanProperties manifest = .ok props) :
    CreateBinding topology manifest secrets =
      Outcome.bind (secretFromConfigStoreOf props secrets) (fun secretFromConfigStore =>
        match props.lookup "password" with
        | some (GoVal.str password) =>
          Outcome.ok { host := host, port := RedisServerPort, generatedSecret := gs,
                       password := password, secret := secretFromConfigStore }
        | _ => Outcome.panic) := by
  unfold CreateBinding
  rw [hHost, hGS, hProps]
  rfl

/-- Claim C9: when the manifest redis properties declare a secret value,
the binding fails whenever the value is not a string matching the credhub
reference grammar; when it matches, the captured name is looked up in the
secrets bundle, absence failing with an error naming the reference, and
presence yielding credentials whose config-store secret is the bundle
value for that name. -/
theorem binding_secret_reference {topology : BoshVMs} {manifest : BoshManifest}
    {secrets : Option ManifestSecrets} {host gs : String} {props : Props} {v : GoVal}
    (hHost : getRedisHost topology = .ok host)
    (hGS : generatedSecretOf secrets = .ok gs)
    (hProps : redisPlanProperties manifest = .ok props)
    (hSecret : props.lookup "secret" = some v) :
    ((∀ s, v ≠ GoVal.str s) →
      CreateBinding topology manifest secrets =
        .err "secret in manifest was not a string. expecting a credhub ref string") ∧
    (∀ s, v = GoVal.str s → credhubRefName s = none →
      CreateBinding topology manifest secrets =
        .err ("expecting a credhub ref string with format ((xxx)), but got: " ++ s)) ∧
    (∀ s path, v = GoVal.str s → credhubRefName s = some path →
      (secrets.getD []).lookup path = none →
      CreateBinding topology manifest secrets =
        .err ("secret \x27" ++ path ++ "\x27 not present in manifest secrets passed to bind")) ∧
    (∀ s path sv pw, v = GoVal.str s → credhubRefName s = some path →
      (secrets.getD []).lookup path = some sv →
      props.lookup "password" = some (GoVal.str pw) →
      CreateBinding topology manifest secrets = .ok
        { host := host, port := RedisServerPort, generatedSecret := gs,
          password := pw, secret := sv }) := by
  have hred := createBinding_reduce hHost hGS hProps
  refine ⟨?_, ?_, ?_, ?_⟩
  · intro hns
    rw [hred]
    have hcs : secretFromConfigStoreOf props secrets =
        .err "secret in manifest was not a string. expecting a credhub ref string" := by
      simp only [secretFromConfigStoreOf, hSecret]
    rw [hcs]
    rfl
  · intro s hv hnone
    subst hv
    rw [hred]
    have hcs : secretFromConfigStoreOf props secrets =
        .err ("expecting a credhub ref string with format ((xxx)), but got: " ++ s) := by
      simp only [secretFromConfigStoreOf, hSecret, hnone]
    rw [hcs]
    rfl
  · intro s path hv hpath hmiss
    subst hv
    rw [hred]
    have hcs : secretFromConfigStoreOf props secrets =
        .err ("secret \x27" ++ path ++ "\x27 not present in manifest secrets passed to bind") := by
      simp only [secretFromConfigStoreOf, hSecret, hpath, hmiss]
    rw [hcs]
    rfl
  · intro s path sv pw hv hpath hfound hpw
    subst hv
    rw [hred]
    have hcs : secretFromConfigStoreOf props secrets = .ok sv := by
      simp only [secretFromConfigStoreOf, hSecret, hpath, hfound]
    rw [hcs]
    simp only [Outcome.bind, hpw]

/-- Witness for binding_secret_reference: the reference ((my/path)) against
a bundle holding my/path resolves to the bundle value; against a bundle
missing it, the binding fails naming my/path. -/
theorem binding_secret_reference_witness :
    CreateBinding exTopology exBindManifest (some exSecrets) =
      .ok { host := "10.0.0.1", port := 6379, generatedSecret := "genpass",
            password := "redispass", secret := "xyz" } ∧
    CreateBinding exTopology exBindManifest (some [("secret_pass", "genpass")]) =
      .err "secret \x27my/path\x27 not present in manifest secrets passed to bind" := by
  constructor
  · exact (@binding_secret_reference exTopology exBindManifest (some exSecrets)
      "10.0.0.1" "genpass"
      [("password", GoVal.str "redispass"), ("secret", GoVal.str "((my/path))")]
      (GoVal.str "((my/path))") rfl rfl rfl rfl).2.2.2
      "((my/path))" "my/path" "xyz" "redispass" rfl rfl rfl rfl
  · exact (@binding_secret_reference exTopology exBindManifest (some [("secret_pass", "genpass")])
      "10.0.0.1" "genpass"
      [("password", GoVal.str "redispass"), ("secret", GoVal.str "((my/path))")]
      (GoVal.str "((my/path))") rfl rfl rfl rfl).2.2.1
      "((my/path))" "my/path" rfl rfl rfl

/-- Claim C10: a nil secrets bundle with no declared secret property binds
successfully with an empty generated secret, while any supplied bundle
lacking the secret_pass key always fails the binding with an error. -/
theorem binding_bundle_presence {topology : BoshVMs} {manifest : BoshManifest}
    {host : String} {props : Props} {pw : String}
    (hHost : getRedisHost topology = .ok host)
    (hProps : redisPlanProperties manifest = .ok props)
    (hNoSecret : props.lookup "secret" = none)
    (hPw : props.lookup "password" = some (GoVal.str pw)) :
    CreateBinding topology manifest none = .ok
      { host := host, port := RedisServerPort, generatedSecret := "",
        password := pw, secret := "" } ∧
    (∀ (topology2 : BoshVMs) (manifest2 : BoshManifest) (bundle : ManifestSecrets),
      bundle.lookup "secret_pass" = none →
      ∃ e, CreateBinding topology2 manifest2 (some bundle) = Outcome.err e) := by
  constructor
  · have hred := createBinding_reduce hHost
      (rfl : generatedSecretOf none = Except.ok "") hProps
    rw [hred]
    have hcs : secretFromConfigStoreOf props none = .ok "" := by
      simp only [secretFromConfigStoreOf, hNoSecret]
    rw [hcs]
    simp only [Outcome.bind, hPw]
  · intro topology2 manifest2 bundle hb
    cases hg : getRedisHost topology2 with
    | error e => exact ⟨"", createBinding_err_of_host hg⟩
    | ok host2 =>
      refine ⟨"manifest wasn\x27t correctly interpolated: missing value for `secret_pass`", ?_⟩
      unfold CreateBinding
      rw [hg]
      have hgs : generatedSecretOf (some bundle) =
          .error "manifest wasn\x27t correctly interpolated: missing value for `secret_pass`" := by
        simp only [generatedSecretOf, hb]
      rw [hgs]

/-- Witness for binding_bundle_presence: binding with no bundle yields an
empty generated secret; a bundle without secret_pass fails. -/
theorem binding_bundle_presence_witness :
    CreateBinding exTopology exPrevManifest none = .ok
      { host := "10.0.0.1", port := 6379, generatedSecret := "",
        password := "oldpassword", secret := "" } ∧
    ∃ e, CreateBinding exTopology exPrevManifest (some [("other", "x")]) = Outcome.err e := by
  constructor
  · exact (@binding_bundle_presence exTopology exPrevManifest "10.0.0.1"
      [("persistence", GoVal.str "yes"), ("password", GoVal.str "oldpassword"),
       ("maxclients", GoVal.int 42)] "oldpassword" rfl rfl rfl rfl).1
  · exact (@binding_bundle_presence exTopology exPrevManifest "10.0.0.1"
      [("persistence", GoVal.str "yes"), ("password", GoVal.str "oldpassword"),
       ("maxclients", GoVal.int 42)] "oldpassword" rfl rfl rfl rfl).2
      exTopology exPrevManifest [("other", "x")] rfl
